import Mathlib

/-!
Verification of the multi-tool agent demo (`multi-tool-agent/agent.py`).

The file shallowly embeds the pure parts of the source: the tool bodies
(`get_weather`, `say_hello`, `say_goodbye`), the event-consumption loop of
`call_agent_async`, and the agent capability descriptors
(`greeting_agent`, `farewell_agent`, `weather_agent`, `root_agent`).
Components that live in the external ADK library (session store mutation,
the history appends performed by `Runner.run_async`, and the reasoning
engine's routing decision) are modelled from the spec where a claim needs
them; each such definition says so in its doc comment.
-/

namespace MultiToolAgent

/-- The dictionary shape returned by `get_weather`: a `status` discriminator,
a `report` present on the success entries and an `error_message` present on
the failure branch (the Python function returns heterogeneous dicts). -/
structure WeatherResult where
  status : String
  report : Option String
  error_message : Option String
deriving DecidableEq

/-- Python's Unicode-aware `str.lower()` per character, on the Latin
repertoire: ASCII `A`-`Z`; Latin-1 `À`-`Ö` and `Ø`-`Þ` (`×` has no case);
the Vietnamese base letters `Ă`, `Đ`, `Ơ`, `Ư` of Latin Extended-A/B; the
upper half of each Latin Extended Additional pair (U+1E00-U+1E94 and the
Vietnamese block U+1EA0-U+1EFE, uppercase at even code points, lowercase one
above), `ẞ` → `ß`; and the Kelvin and Angstrom signs, whose lowercase forms
are `k` and `å`.  Every mapping listed agrees with Python's; characters
outside them are left unchanged, which cannot move a string into or out of
the recognized key set: the only characters Python lowers into the keys'
alphabet (`a`-`z`, `à`, `ộ`) are `A`-`Z`, `À`, `Ộ` and the Kelvin sign, all
covered (`İ` full-lowers to `i` plus a combining dot, never matching a
key). -/
def python_char_lower (c : Char) : Char :=
  let n := c.toNat
  if 65 ≤ n ∧ n ≤ 90 then Char.ofNat (n + 32)
  else if 192 ≤ n ∧ n ≤ 214 then Char.ofNat (n + 32)
  else if 216 ≤ n ∧ n ≤ 222 then Char.ofNat (n + 32)
  else if n = 0x102 ∨ n = 0x110 ∨ n = 0x1A0 ∨ n = 0x1AF then Char.ofNat (n + 1)
  else if 0x1E00 ≤ n ∧ n ≤ 0x1E95 ∧ n % 2 = 0 then Char.ofNat (n + 1)
  else if n = 0x1E9E then Char.ofNat 0xDF
  else if 0x1EA0 ≤ n ∧ n ≤ 0x1EFF ∧ n % 2 = 0 then Char.ofNat (n + 1)
  else if n = 0x212A then Char.ofNat 0x6B
  else if n = 0x212B then Char.ofNat 0xE5
  else c

/-- `city.lower().replace(" ", "")` from `get_weather`: lowercase each
character (`python_char_lower`) and remove every space character
(`replace(" ", "")` removes exactly U+0020). -/
def normalize_city (city : String) : String :=
  ((city.toList.map python_char_lower).filter (fun c => c ≠ ' ')).asString

/-- The `mock_weather_db` dict literal of `get_weather`, as an association
list in source order. -/
def mock_weather_db : List (String × WeatherResult) :=
  [("hanoi", ⟨"success", some "☀️ Hà Nội: Nắng đẹp, 25°C", none⟩),
   ("hànội", ⟨"success", some "☀️ Hà Nội: Nắng đẹp, 25°C", none⟩),
   ("london", ⟨"success", some "☁️ London: Nhiều mây, 15°C", none⟩),
   ("tokyo", ⟨"success", some "🌧️ Tokyo: Mưa nhẹ, 18°C", none⟩)]

/-- `get_weather` (agent.py lines 23-48): normalize the city, look it up in
the mock database, and on a miss return the error dict embedding the
original (un-normalized) city string. -/
def get_weather (city : String) : WeatherResult :=
  match mock_weather_db.lookup (normalize_city city) with
  | some r => r
  | none => ⟨"error", none,
      some ("Xin lỗi, không có thông tin thời tiết cho '" ++ city ++ "'.")⟩

/-- `say_hello` (agent.py lines 51-63).  Python's `if name:` is true exactly
when `name` is neither `None` nor the empty string. -/
def say_hello (name : Option String) : String :=
  match name with
  | some n => if n ≠ "" then "👋 Xin chào, " ++ n ++ "!" else "👋 Xin chào!"
  | none => "👋 Xin chào!"

/-- `say_goodbye` (agent.py lines 66-68). -/
def say_goodbye : String :=
  "👋 Tạm biệt! Chúc bạn một ngày tốt lành! ✨"

/-- One content part of an event; `text` is optional in the genai types. -/
structure ContentPart where
  text : Option String
deriving DecidableEq

/-- Event content: a list of parts (`None`/empty both read as falsy by the
source's `event.content.parts` check, so the empty list covers both). -/
structure EventContent where
  parts : List ContentPart
deriving DecidableEq

/-- The `actions` record of an event, as far as the source reads it. -/
structure EventActions where
  escalate : Bool
deriving DecidableEq

/-- An ADK event, restricted to the fields `call_agent_async` reads:
`is_final_response()`, `content.parts`, `actions.escalate`, `error_message`. -/
structure Event where
  is_final_response : Bool
  content : Option EventContent
  actions : Option EventActions
  error_message : Option String
deriving DecidableEq

/-- The initial value of `final_response_text` in `call_agent_async`. -/
def fallback_response : String := "⚠️ Agent không tạo ra response."

/-- Python's `event.error_message or 'Không có message.'`: the fallback is
used when the message is `None` or empty (both falsy). -/
def escalation_message : Option String → String
  | some s => if s ≠ "" then s else "Không có message."
  | none => "Không có message."

/-- Whether `event.content and event.content.parts` is truthy. -/
def content_truthy (e : Event) : Bool :=
  match e.content with
  | some c => !c.parts.isEmpty
  | none => false

/-- Whether `event.actions and event.actions.escalate` is truthy. -/
def escalates (e : Event) : Bool :=
  match e.actions with
  | some a => a.escalate
  | none => false

/-- The value `final_response_text` holds after the final event's branch in
`call_agent_async` (agent.py lines 168-173): the first content part's
(optional) text if content parts are present, else the escalation warning if
`actions.escalate`, else the untouched initial fallback. -/
def final_event_text (e : Event) : Option String :=
  match e.content with
  | some ⟨p :: _⟩ => p.text
  | _ =>
    match e.actions with
    | some a =>
      if a.escalate then
        some ("⚠️ Agent escalated: " ++ escalation_message e.error_message)
      else some fallback_response
    | none => some fallback_response

/-- The event-consumption loop of `call_agent_async` (agent.py lines
159-175) over the sequence of events `runner.run_async` yields: stop and
answer at the first final event, otherwise keep the initial fallback.  The
result is an `Option` because the content branch returns `parts[0].text`,
which may be `None`. -/
def call_agent_async : List Event → Option String
  | [] => some fallback_response
  | e :: rest =>
    if e.is_final_response then final_event_text e
    else call_agent_async rest

/-- An escalation event as the spec's event model shapes it (§3): a terminal
event whose `escalate` flag is set and which carries no content payload,
only an optional error message. -/
def is_escalation_event (e : Event) : Bool :=
  e.is_final_response && !content_truthy e && escalates e

/-- A session-history entry: role and text. -/
structure Message where
  role : String
  text : String
deriving DecidableEq

/-- Modelled from the spec: the agent message the external ADK
`Runner.run_async` (not part of this repository) appends to session history
when a given final event closes the turn — spec §4.3 step 3 appends an
agent message exactly when a final event's content text is captured; no
agent message is appended on escalation or when no terminal event occurs
(§4.3 step 4, §8). -/
def final_agent_message (e : Event) : List Message :=
  match e.content with
  | some ⟨p :: _⟩ =>
    match p.text with
    | some t => [Message.mk "agent" t]
    | none => []
  | _ => []

/-- Modelled from the spec: the agent messages appended over the whole event
sequence — those of the first final event, none when no event is final. -/
def agent_append : List Event → List Message
  | [] => []
  | e :: rest =>
    if e.is_final_response then final_agent_message e
    else agent_append rest

/-- Modelled from the spec: the session-history effect of one turn together
with the text `call_agent_async` computes.  The user message is appended
before reasoning begins and the agent message per `agent_append` (spec
§4.3); the returned text is the source's `call_agent_async` result. -/
def run_turn (history : List Message) (q : String) (events : List Event) :
    List Message × Option String :=
  (history ++ Message.mk "user" q :: agent_append events, call_agent_async events)

/-- A session as the spec's data model shapes it (§3): the identity triple
and the ordered message history. -/
structure Session where
  app_name : String
  user_id : String
  session_id : String
  history : List Message
deriving DecidableEq

/-- The in-memory session store: identity triple to session. -/
abbrev SessionStore := List ((String × String × String) × Session)

/-- Modelled from the spec: `InMemorySessionService.create_session` (an ADK
class, not part of this repository), per spec §4.4 — creation is idempotent
per identity: an existing session for the identity is returned unchanged,
otherwise a fresh empty-history session is inserted. -/
def create_session (store : SessionStore) (app user sid : String) :
    SessionStore × Session :=
  match store.lookup (app, user, sid) with
  | some s => (store, s)
  | none =>
    let s : Session := ⟨app, user, sid, []⟩
    (((app, user, sid), s) :: store, s)

/-- An agent capability descriptor: name, description, instruction, tool
names, child agents (the fields of the source's `Agent(...)` calls that the
routing contract reads). -/
inductive AgentDef : Type where
  | mk (name description instruction : String)
       (tools : List String) (sub_agents : List AgentDef)

def AgentDef.name : AgentDef → String
  | .mk n _ _ _ _ => n

def AgentDef.description : AgentDef → String
  | .mk _ d _ _ _ => d

def AgentDef.instruction : AgentDef → String
  | .mk _ _ i _ _ => i

def AgentDef.tools : AgentDef → List String
  | .mk _ _ _ t _ => t

def AgentDef.sub_agents : AgentDef → List AgentDef
  | .mk _ _ _ _ s => s

/-- `greeting_agent` (agent.py lines 78-87). -/
def greeting_agent : AgentDef :=
  .mk "greeting_agent"
      "Xử lý greetings sử dụng 'say_hello'."
      ("Nhiệm vụ DUY NHẤT: Chào hỏi thân thiện. " ++
       "Dùng tool 'say_hello'. " ++
       "Nếu user cung cấp tên, truyền cho tool. " ++
       "KHÔNG làm gì khác.")
      ["say_hello"] []

/-- `weather_agent` (agent.py lines 90-99). -/
def weather_agent : AgentDef :=
  .mk "weather_agent"
      "Cung cấp thông tin thời tiết cho các thành phố."
      ("Bạn là trợ lý thời tiết. " ++
       "Khi user hỏi về thời tiết, dùng tool 'get_weather'. " ++
       "Nếu tool lỗi, thông báo lịch sự. " ++
       "Nếu thành công, trình bày báo cáo rõ ràng.")
      ["get_weather"] []

/-- `farewell_agent` (agent.py lines 102-110). -/
def farewell_agent : AgentDef :=
  .mk "farewell_agent"
      "Xử lý farewells sử dụng 'say_goodbye'."
      ("Nhiệm vụ DUY NHẤT: Tạm biệt lịch sự. " ++
       "Dùng tool 'say_goodbye' khi user nói bye/tạm biệt. " ++
       "KHÔNG làm gì khác.")
      ["say_goodbye"] []

/-- `root_agent` (agent.py lines 117-134): own tool `get_weather`,
sub-agents `[greeting_agent, farewell_agent]` in source order. -/
def root_agent : AgentDef :=
  .mk "weather_assistant_team"
      "Agent điều phối: Weather requests + delegate greetings/farewells."
      ("Bạn là Weather Agent chính điều phối team. " ++
       "TRÁCH NHIỆM CHÍNH: Cung cấp thông tin thời tiết. " ++
       "Dùng 'get_weather' CHỈ cho weather requests. " ++
       "\n\nSUB-AGENTS: " ++
       "1. 'greeting_agent': Xử lý 'Hi', 'Xin chào' → DELEGATE " ++
       "2. 'farewell_agent': Xử lý 'Tạm biệt', 'Bye' → DELEGATE " ++
       "\n\nPHÂN TÍCH query: " ++
       "- Greeting? → delegate greeting_agent " ++
       "- Farewell? → delegate farewell_agent " ++
       "- Weather? → tự xử lý với get_weather " ++
       "- Khác? → phản hồi lịch sự hoặc nói không xử lý được")
      ["get_weather"] [greeting_agent, farewell_agent]

/-- The reasoning engine's classification of an utterance (spec §4.2: the
engine classifies the utterance; this core only constrains what happens with
a given classification). -/
inductive Intent : Type where
  | greeting
  | farewell
  | weather
  | other
deriving DecidableEq

/-- Modelled from the spec: whether a child agent's declared responsibility
(its description string, as written in the source) covers an intent — the
classification itself is performed by the external reasoning engine (spec
§4.2 step 1). -/
def child_handles (a : AgentDef) (i : Intent) : Bool :=
  match i with
  | .greeting => a.description == "Xử lý greetings sử dụng 'say_hello'."
  | .farewell => a.description == "Xử lý farewells sử dụng 'say_goodbye'."
  | _ => false

/-- Modelled from the spec: whether an agent's own declared responsibility
covers an intent (the root's own responsibility is weather, via its
`get_weather` tool). -/
def own_handles (a : AgentDef) (i : Intent) : Bool :=
  i == Intent.weather && a.tools.contains "get_weather"

/-- The routing decision, as data (spec §9: represent the decision as data):
delegate to a child, invoke an own tool, or decline. -/
inductive Route : Type where
  | delegate (child : AgentDef)
  | own_tool (tool : String)
  | decline

/-- Modelled from the spec: the §4.2 resolution policy executed by the
external reasoning engine — children are checked first, in order, against
the classified intent; only then is the agent's own tool considered; else
decline. -/
def resolve (a : AgentDef) (i : Intent) : Route :=
  match a.sub_agents.find? (fun c => child_handles c i) with
  | some c => Route.delegate c
  | none =>
    if own_handles a i then
      match a.tools with
      | t :: _ => Route.own_tool t
      | [] => Route.decline
    else Route.decline

/-- The event `call_agent_async` mishandles: final, with content whose first
part carries no text. -/
def textless_final_event : Event :=
  ⟨true, some ⟨[⟨none⟩]⟩, none, none⟩

/-- A non-final event, as the engine's intermediate signals. -/
def sample_intermediate_event : Event :=
  ⟨false, none, none, none⟩

/-- A final event with content text. -/
def sample_final_event : Event :=
  ⟨true, some ⟨[⟨some "Xong"⟩]⟩, none, none⟩

/-- An escalation event carrying a message. -/
def sample_escalation_event : Event :=
  ⟨true, none, some ⟨true⟩, some "internal timeout"⟩

/-- Every value stored in the mock database has status success. -/
theorem lookup_mock_db_success (k : String) (r : WeatherResult)
    (h : mock_weather_db.lookup k = some r) : r.status = "success" := by
  simp only [mock_weather_db, List.lookup] at h
  repeat' split at h
  all_goals first
  | (cases h; rfl)
  | exact Option.noConfusion h

/-- `get_weather` evaluated through the normalized key. -/
theorem get_weather_of_normalized (city k : String) (r : WeatherResult)
    (h : normalize_city city = k) (hl : mock_weather_db.lookup k = some r) :
    get_weather city = r := by
  unfold get_weather
  rw [h, hl]

/-- `get_weather` on a key missing from the database. -/
theorem get_weather_of_lookup_none (city : String)
    (hl : mock_weather_db.lookup (normalize_city city) = none) :
    get_weather city = ⟨"error", none,
      some ("Xin lỗi, không có thông tin thời tiết cho '" ++ city ++ "'.")⟩ := by
  unfold get_weather
  rw [hl]

/-- A normalized key outside the recognized set misses the database. -/
theorem lookup_none_of_not_mem (n : String)
    (h : n ∉ ["hanoi", "hànội", "london", "tokyo"]) :
    mock_weather_db.lookup n = none := by
  simp only [List.mem_cons, List.not_mem_nil, or_false, not_or] at h
  obtain ⟨h1, h2, h3, h4⟩ := h
  simp [mock_weather_db, List.lookup, beq_eq_false_iff_ne.mpr h1,
    beq_eq_false_iff_ne.mpr h2, beq_eq_false_iff_ne.mpr h3,
    beq_eq_false_iff_ne.mpr h4]

/-- C1: for every city whose normalized form is a recognized key,
`get_weather` returns a success record with a non-empty report; for every
other city it returns an error record whose non-empty message embeds the
given city string verbatim.  The embedded function is total: every failure
is returned as data, never raised. -/
theorem get_weather_contract (city : String) :
    (normalize_city city ∈ ["hanoi", "hànội", "london", "tokyo"] →
      (get_weather city).status = "success" ∧
      ∃ r, (get_weather city).report = some r ∧ r ≠ "") ∧
    (normalize_city city ∉ ["hanoi", "hànội", "london", "tokyo"] →
      (get_weather city).status = "error" ∧
      ∃ m, (get_weather city).error_message = some m ∧ m ≠ "" ∧
        ∃ a b, m = a ++ city ++ b) := by
  constructor
  · intro h
    simp only [List.mem_cons, List.not_mem_nil, or_false] at h
    rcases h with h | h | h | h
    · rw [get_weather_of_normalized city "hanoi"
        ⟨"success", some "☀️ Hà Nội: Nắng đẹp, 25°C", none⟩ h rfl]
      exact ⟨rfl, _, rfl, by decide⟩
    · rw [get_weather_of_normalized city "hànội"
        ⟨"success", some "☀️ Hà Nội: Nắng đẹp, 25°C", none⟩ h rfl]
      exact ⟨rfl, _, rfl, by decide⟩
    · rw [get_weather_of_normalized city "london"
        ⟨"success", some "☁️ London: Nhiều mây, 15°C", none⟩ h rfl]
      exact ⟨rfl, _, rfl, by decide⟩
    · rw [get_weather_of_normalized city "tokyo"
        ⟨"success", some "🌧️ Tokyo: Mưa nhẹ, 18°C", none⟩ h rfl]
      exact ⟨rfl, _, rfl, by decide⟩
  · intro h
    rw [get_weather_of_lookup_none city (lookup_none_of_not_mem _ h)]
    refine ⟨rfl, _, rfl, ?_,
      "Xin lỗi, không có thông tin thời tiết cho '", "'.", rfl⟩
    intro hm
    have hlen := congrArg String.length hm
    rw [String.length_append, String.length_append] at hlen
    have h0 : ("" : String).length = 0 := rfl
    have ha : 0 < ("Xin lỗi, không có thông tin thời tiết cho '" : String).length := by
      decide
    omega

/-- C1 witness: `get_weather "Tokyo"` and the all-uppercase Unicode
`get_weather "HÀ NỘI"` succeed with a non-empty report, and
`get_weather "Atlantis"` fails with a non-empty message mentioning
"Atlantis". -/
theorem get_weather_contract_witness :
    ((get_weather "Tokyo").status = "success" ∧
      ∃ r, (get_weather "Tokyo").report = some r ∧ r ≠ "") ∧
    ((get_weather "HÀ NỘI").status = "success" ∧
      ∃ r, (get_weather "HÀ NỘI").report = some r ∧ r ≠ "") ∧
    ((get_weather "Atlantis").status = "error" ∧
      ∃ m, (get_weather "Atlantis").error_message = some m ∧ m ≠ "" ∧
        ∃ a b, m = a ++ "Atlantis" ++ b) :=
  ⟨(get_weather_contract "Tokyo").1 (by decide),
   (get_weather_contract "HÀ NỘI").1 (by decide),
   (get_weather_contract "Atlantis").2 (by decide)⟩

/-- C9: `get_weather` is deterministic, its result is invariant under key
normalization whenever the first city succeeds, and the original
(un-normalized) city string shows up only in the failure branch, embedded
verbatim in the error message. -/
theorem get_weather_normalization (c₁ c₂ : String)
    (h : normalize_city c₁ = normalize_city c₂) :
    ((get_weather c₁).status = "success" → get_weather c₁ = get_weather c₂) ∧
    get_weather c₁ = get_weather c₁ ∧
    ((get_weather c₁).status ≠ "success" →
      (get_weather c₁).error_message =
        some ("Xin lỗi, không có thông tin thời tiết cho '" ++ c₁ ++ "'.")) := by
  refine ⟨?_, rfl, ?_⟩
  · intro hs
    cases hl : mock_weather_db.lookup (normalize_city c₁) with
    | some r =>
      rw [get_weather_of_normalized c₁ (normalize_city c₁) r rfl hl,
        get_weather_of_normalized c₂ (normalize_city c₁) r h.symm hl]
    | none =>
      rw [get_weather_of_lookup_none c₁ hl] at hs
      simp at hs
  · intro hns
    cases hl : mock_weather_db.lookup (normalize_city c₁) with
    | some r =>
      rw [get_weather_of_normalized c₁ (normalize_city c₁) r rfl hl] at hns
      exact absurd (lookup_mock_db_success _ r hl) hns
    | none =>
      rw [get_weather_of_lookup_none c₁ hl]

/-- C9 witness: the all-uppercase "HÀ NỘI" and the lowercase "hà nội"
normalize alike under Python's Unicode lowering, so the theorem applies to
them at a concrete input. -/
theorem get_weather_normalization_witness :
    ((get_weather "HÀ NỘI").status = "success" →
      get_weather "HÀ NỘI" = get_weather "hà nội") ∧
    get_weather "HÀ NỘI" = get_weather "HÀ NỘI" ∧
    ((get_weather "HÀ NỘI").status ≠ "success" →
      (get_weather "HÀ NỘI").error_message =
        some ("Xin lỗi, không có thông tin thời tiết cho '" ++ "HÀ NỘI" ++ "'.")) :=
  get_weather_normalization "HÀ NỘI" "hà nội" (by decide)

/-- C10: `say_hello` greets a non-empty name by name, treats `None` and the
empty string alike with the generic greeting, and `say_goodbye` is the fixed
farewell string. -/
theorem say_hello_goodbye_spec :
    (∀ n : String, n ≠ "" → say_hello (some n) = "👋 Xin chào, " ++ n ++ "!") ∧
    say_hello none = "👋 Xin chào!" ∧
    say_hello (some "") = "👋 Xin chào!" ∧
    say_goodbye = "👋 Tạm biệt! Chúc bạn một ngày tốt lành! ✨" := by
  refine ⟨fun n hn => ?_, rfl, rfl, rfl⟩
  simp [say_hello, hn]

/-- `call_agent_async` ignores a leading non-final event. -/
theorem call_agent_async_cons_not_final (e : Event) (rest : List Event)
    (h : e.is_final_response = false) :
    call_agent_async (e :: rest) = call_agent_async rest := by
  simp [call_agent_async, h]

/-- `call_agent_async` ignores a whole prefix of non-final events. -/
theorem call_agent_async_skips (pre l : List Event)
    (hpre : ∀ x ∈ pre, x.is_final_response = false) :
    call_agent_async (pre ++ l) = call_agent_async l := by
  induction pre with
  | nil => rfl
  | cons a as ih =>
    rw [List.cons_append,
      call_agent_async_cons_not_final a _ (hpre a (List.mem_cons_self a as)),
      ih (fun x hx => hpre x (List.mem_cons_of_mem a hx))]

/-- C7: the loop stops at the first terminal event — every intermediate
event before it is skipped without changing the returned text, and nothing
after it influences (or needs to be pulled for) the result: the returned
value equals the run on the one-event sequence holding just the first final
event. -/
theorem stops_at_first_final (pre : List Event) (e : Event) (post : List Event)
    (hpre : ∀ x ∈ pre, x.is_final_response = false)
    (he : e.is_final_response = true) :
    call_agent_async (pre ++ e :: post) = call_agent_async [e] := by
  rw [call_agent_async_skips pre _ hpre]
  simp [call_agent_async, he]

/-- C7 witness: a concrete run with one intermediate event before and one
event after the final one. -/
theorem stops_at_first_final_witness :
    call_agent_async
      [sample_intermediate_event, sample_final_event, sample_intermediate_event] =
      call_agent_async [sample_final_event] :=
  stops_at_first_final [sample_intermediate_event] sample_final_event
    [sample_intermediate_event] (by decide) (by decide)

/-- The final-event branch on a spec-shaped escalation event. -/
theorem final_event_text_escalation (e : Event)
    (hc : content_truthy e = false) (hesc : escalates e = true) :
    final_event_text e =
      some ("⚠️ Agent escalated: " ++ escalation_message e.error_message) := by
  obtain ⟨fin, con, act, err⟩ := e
  cases act with
  | none => exact absurd hesc (by simp [escalates])
  | some a =>
    have ha : a.escalate = true := by simpa [escalates] using hesc
    cases con with
    | none => simp [final_event_text, ha]
    | some c =>
      obtain ⟨parts⟩ := c
      cases parts with
      | nil => simp [final_event_text, ha]
      | cons p ps => simp [content_truthy] at hc

/-- C2: when the first terminal event is an escalation (spec-shaped, §3: no
content payload, escalate flag set, optional error message), the returned
text is a warning string that embeds the escalation's message — with the
fixed fallback phrase in its place when the message is absent.  The
escalation is never silently swallowed. -/
theorem escalation_surfaced (pre : List Event) (e : Event) (post : List Event)
    (hpre : ∀ x ∈ pre, x.is_final_response = false)
    (he : is_escalation_event e = true) :
    ∃ warn, call_agent_async (pre ++ e :: post) = some warn ∧
      warn = "⚠️ Agent escalated: " ++ escalation_message e.error_message ∧
      (∀ m, e.error_message = some m → ∃ a b, warn = a ++ m ++ b) ∧
      (e.error_message = none →
        warn = "⚠️ Agent escalated: " ++ "Không có message.") := by
  simp only [is_escalation_event, Bool.and_eq_true, Bool.not_eq_true'] at he
  obtain ⟨⟨hf, hc⟩, hesc⟩ := he
  rw [call_agent_async_skips pre _ hpre]
  have hstep : call_agent_async (e :: post) = final_event_text e := by
    simp [call_agent_async, hf]
  rw [hstep, final_event_text_escalation e hc hesc]
  refine ⟨_, rfl, rfl, ?_, ?_⟩
  · intro m hm
    by_cases hme : m = ""
    · refine ⟨"⚠️ Agent escalated: ", "Không có message.", ?_⟩
      rw [hm, hme]
      simp [escalation_message, String.append_empty]
    · refine ⟨"⚠️ Agent escalated: ", "", ?_⟩
      rw [hm, String.append_empty]
      simp [escalation_message, hme]
  · intro hnone
    rw [hnone]
    rfl

/-- C2 witness: a concrete escalation event carrying "internal timeout"
after one intermediate event. -/
theorem escalation_surfaced_witness :
    ∃ warn, call_agent_async
        [sample_intermediate_event, sample_escalation_event] = some warn ∧
      warn = "⚠️ Agent escalated: " ++
        escalation_message sample_escalation_event.error_message ∧
      (∀ m, sample_escalation_event.error_message = some m →
        ∃ a b, warn = a ++ m ++ b) ∧
      (sample_escalation_event.error_message = none →
        warn = "⚠️ Agent escalated: " ++ "Không có message.") :=
  escalation_surfaced [sample_intermediate_event] sample_escalation_event []
    (by decide) (by decide)

/-- `agent_append` is empty when no event is final. -/
theorem agent_append_eq_nil (events : List Event)
    (h : ∀ e ∈ events, e.is_final_response = false) :
    agent_append events = [] := by
  induction events with
  | nil => rfl
  | cons a as ih =>
    have ha : a.is_final_response = false := h a (List.mem_cons_self a as)
    simp [agent_append, ha, ih (fun e he => h e (List.mem_cons_of_mem a he))]

/-- C3: a sequence with no terminal event — the empty sequence included —
yields the fixed fallback string (the embedded loop is total: failures come
back as data, nothing is raised), and the turn appends no agent message to
the session history. -/
theorem no_terminal_fallback (history : List Message) (q : String)
    (events : List Event) (h : ∀ e ∈ events, e.is_final_response = false) :
    call_agent_async events = some fallback_response ∧
    (run_turn history q events).1 = history ++ [Message.mk "user" q] := by
  constructor
  · calc call_agent_async events
        = call_agent_async (events ++ []) := by rw [List.append_nil]
      _ = call_agent_async [] := call_agent_async_skips events [] h
      _ = some fallback_response := rfl
  · simp [run_turn, agent_append_eq_nil events h]

/-- C3 witness: the empty event sequence at a concrete query. -/
theorem no_terminal_fallback_witness :
    call_agent_async [] = some fallback_response ∧
    (run_turn [] "Xin chào!" []).1 = [Message.mk "user" "Xin chào!"] :=
  no_terminal_fallback [] "Xin chào!" [] (by simp)

/-- A final event contributes at most one agent message. -/
theorem final_agent_message_length (e : Event) :
    (final_agent_message e).length ≤ 1 := by
  obtain ⟨fin, con, act, err⟩ := e
  rcases con with _ | ⟨⟨_ | ⟨p, ps⟩⟩⟩
  · simp [final_agent_message]
  · simp [final_agent_message]
  · rcases p with ⟨_ | t⟩ <;> simp [final_agent_message]

/-- Every message a final event contributes has the agent role. -/
theorem final_agent_message_roles (e : Event) :
    ∀ m ∈ final_agent_message e, m.role = "agent" := by
  obtain ⟨fin, con, act, err⟩ := e
  rcases con with _ | ⟨⟨_ | ⟨p, ps⟩⟩⟩
  · simp [final_agent_message]
  · simp [final_agent_message]
  · rcases p with ⟨_ | t⟩ <;> simp [final_agent_message]

/-- Over any sequence, at most one agent message is appended. -/
theorem agent_append_length (events : List Event) :
    (agent_append events).length ≤ 1 := by
  induction events with
  | nil => simp [agent_append]
  | cons a as ih =>
    by_cases ha : a.is_final_response <;>
      simp [agent_append, ha, ih, final_agent_message_length]

/-- Every appended message past the user's has the agent role. -/
theorem agent_append_roles (events : List Event) :
    ∀ m ∈ agent_append events, m.role = "agent" := by
  induction events with
  | nil => simp [agent_append]
  | cons a as ih =>
    by_cases ha : a.is_final_response
    · simpa [agent_append, ha] using final_agent_message_roles a
    · simpa [agent_append, ha] using ih

/-- C6: one turn appends exactly one user message followed by at most one
agent message at the end of the session history, and the existing history
prefix is preserved unchanged — nothing is reordered or deleted, however
many intermediate events occur. -/
theorem history_append_frame (history : List Message) (q : String)
    (events : List Event) :
    ∃ suffix, (run_turn history q events).1 =
        history ++ Message.mk "user" q :: suffix ∧
      suffix.length ≤ 1 ∧ ∀ m ∈ suffix, m.role = "agent" :=
  ⟨agent_append events, rfl, agent_append_length events,
    agent_append_roles events⟩

/-- C4: with the source's `root_agent` structure (own tool `get_weather`,
children `greeting_agent` and `farewell_agent`), the §4.2 resolution policy
routes a greeting-classified utterance to `greeting_agent` and a
farewell-classified one to `farewell_agent`; in neither case is the root's
own `get_weather` tool invoked — child-delegation is checked before
own-tool handling — and neither child even owns that tool. -/
theorem routing_delegates_before_own_tool :
    resolve root_agent Intent.greeting = Route.delegate greeting_agent ∧
    resolve root_agent Intent.farewell = Route.delegate farewell_agent ∧
    resolve root_agent Intent.greeting ≠ Route.own_tool "get_weather" ∧
    resolve root_agent Intent.farewell ≠ Route.own_tool "get_weather" ∧
    "get_weather" ∉ greeting_agent.tools ∧
    "get_weather" ∉ farewell_agent.tools := by
  have hg : resolve root_agent Intent.greeting = Route.delegate greeting_agent := rfl
  have hfw : resolve root_agent Intent.farewell = Route.delegate farewell_agent := rfl
  refine ⟨hg, hfw, ?_, ?_, by decide, by decide⟩
  · rw [hg]
    exact fun hcontra => Route.noConfusion hcontra
  · rw [hfw]
    exact fun hcontra => Route.noConfusion hcontra

/-- Inserting a key at the head of the store makes its lookup hit. -/
theorem lookup_insert_self (store : SessionStore)
    (k : String × String × String) (s : Session) :
    List.lookup k ((k, s) :: store) = some s := by
  simp [List.lookup]

/-- C8: session creation is idempotent per identity — the second
`create_session` with the same (appName, userId, sessionId) on the store the
first call produced changes nothing: same store, same session, and the
session's history is unaffected (never duplicated or cleared). -/
theorem create_session_idempotent (store : SessionStore)
    (app user sid : String) :
    create_session (create_session store app user sid).1 app user sid =
      create_session store app user sid ∧
    ((create_session (create_session store app user sid).1 app user sid).2).history =
      ((create_session store app user sid).2).history := by
  have key : create_session (create_session store app user sid).1 app user sid =
      create_session store app user sid := by
    cases hl : store.lookup (app, user, sid) with
    | some s =>
      have e1 : create_session store app user sid = (store, s) := by
        unfold create_session
        rw [hl]
      rw [e1]
      exact e1
    | none =>
      have e1 : create_session store app user sid =
          (((app, user, sid), ⟨app, user, sid, []⟩) :: store,
            ⟨app, user, sid, []⟩) := by
        unfold create_session
        rw [hl]
      rw [e1]
      unfold create_session
      rw [lookup_insert_self]
  exact ⟨key, by rw [key]⟩

/-- C5 failing input: a final event whose first content part carries no
text makes `call_agent_async` yield `None` instead of a string, against the
source's own `-> str` annotation and docstring. -/
theorem final_text_can_be_none :
    call_agent_async [textless_final_event] = none := rfl

end MultiToolAgent
